import Mathlib

/-!
Shallow embedding of the idle-detection core of the repository
(`src/services/idle-detection/IdleDetectionService.ts`).

The service is a single-threaded state machine driven by notification
methods and by one pending `setTimeout` callback.  We embed it as pure
Lean functions over an explicit `ServiceState`:

* the Node timer is modelled by `idleTimer : Option Nat`, the absolute
  deadline of the pending `setTimeout(handleIdleTimeout, idleTimeoutMs)`
  callback (`none` when no timer is pending);
* `EventEmitter.emit` calls are modelled by returning a `List Emission`;
* the auto-prompt folder is modelled by `FS := Option (List (String ×
  Option String))`: `none` means the folder does not exist, otherwise the
  list gives the directory entries in the order `fs.readdir` returns
  them, each name paired with `some content` (a readable file) or `none`
  (a file whose read fails);
* `outputChannel.appendLine` calls are logging only and are dropped.

A timed execution harness `run` feeds a time-stamped list of external
calls to the machine, firing the pending timer callback at its deadline
whenever the deadline precedes the next call (or the final horizon).
-/

namespace IdleDetection

/-- `IdleDetectionMethod` from the source: `"auto" | "button" | "events" | "hybrid"`. -/
inductive IdleDetectionMethod where
  | auto
  | button
  | events
  | hybrid
deriving DecidableEq, Repr

/-- `IdleDetectionConfig` from the source. -/
structure IdleDetectionConfig where
  enabled : Bool
  detectionMethod : IdleDetectionMethod
  idleTimeoutMs : Nat
  enableNotifications : Bool
  autoPromptFolder : String
  showStatusBar : Bool
deriving DecidableEq, Repr

/-- `Partial<IdleDetectionConfig>`: every field optional, merged over the
current configuration by `updateConfig` via object spread. -/
structure ConfigPatch where
  enabled : Option Bool
  detectionMethod : Option IdleDetectionMethod
  idleTimeoutMs : Option Nat
  enableNotifications : Option Bool
  autoPromptFolder : Option String
  showStatusBar : Option Bool
deriving DecidableEq, Repr

/-- The empty patch (no field present). -/
def emptyPatch : ConfigPatch :=
  ⟨none, none, none, none, none, none⟩

/-- `{ ...this.config, ...config }`: fields present in the patch override. -/
def mergeConfig (cfg : IdleDetectionConfig) (p : ConfigPatch) : IdleDetectionConfig :=
  { enabled := p.enabled.getD cfg.enabled
    detectionMethod := p.detectionMethod.getD cfg.detectionMethod
    idleTimeoutMs := p.idleTimeoutMs.getD cfg.idleTimeoutMs
    enableNotifications := p.enableNotifications.getD cfg.enableNotifications
    autoPromptFolder := p.autoPromptFolder.getD cfg.autoPromptFolder
    showStatusBar := p.showStatusBar.getD cfg.showStatusBar }

/-- `IdleStatus` from the source: `"active" | "waiting" | "idle" | "paused"`. -/
inductive IdleStatus where
  | active
  | waiting
  | idle
  | paused
deriving DecidableEq, Repr

/-- `lastIdleDetectionSource`: `"button" | "events" | "none"`. -/
inductive DetectionSource where
  | button
  | events
  | noSource
deriving DecidableEq, Repr

/-- `pausedState`: the snapshot taken by `pause()`. -/
structure PausedState where
  isIdle : Bool
  isTaskActive : Bool
deriving DecidableEq, Repr

/-- The mutable instance fields of `IdleDetectionService`. -/
structure ServiceState where
  idleTimer : Option Nat
  isIdle : Bool
  isTaskActive : Bool
  config : IdleDetectionConfig
  workspacePath : Option String
  currentStatus : IdleStatus
  lastIdleDetectionSource : DetectionSource
  isPaused : Bool
  pausedState : Option PausedState
deriving DecidableEq, Repr

/-- The events the service emits (`this.emit(...)`); `notificationShown`
stands for the `vscode.window.showInformationMessage` side effect. -/
inductive Emission where
  | statusChanged (s : IdleStatus)
  | idle
  | active
  | autoPromptReady (prompt : String)
  | paused
  | resumed
  | notificationShown
deriving DecidableEq, Repr

/-- The auto-prompt folder: absent, or a directory listing in `readdir`
order; an entry's `none` content models a file whose read fails. -/
def FS : Type := Option (List (String × Option String))

/-- The constructor: fields as initialised in the class declaration. -/
def initialState (cfg : IdleDetectionConfig) (wp : Option String) : ServiceState :=
  { idleTimer := none
    isIdle := false
    isTaskActive := false
    config := cfg
    workspacePath := wp
    currentStatus := IdleStatus.active
    lastIdleDetectionSource := DetectionSource.noSource
    isPaused := false
    pausedState := none }

/-- `updateStatus`: change `currentStatus` and emit `statusChanged` only
when the status actually differs. -/
def updateStatus (newStatus : IdleStatus) (s : ServiceState) :
    ServiceState × List Emission :=
  if s.currentStatus ≠ newStatus then
    ({ s with currentStatus := newStatus }, [Emission.statusChanged newStatus])
  else
    (s, [])

/-- `clearIdleTimer`: drop the pending timer (clearTimeout + undefined). -/
def clearIdleTimer (s : ServiceState) : ServiceState :=
  { s with idleTimer := none }

/-- `startIdleTimer` at absolute time `now`: clear any pending timer and
schedule `handleIdleTimeout` after `config.idleTimeoutMs`. -/
def startIdleTimer (now : Nat) (s : ServiceState) : ServiceState :=
  { clearIdleTimer s with idleTimer := some (now + s.config.idleTimeoutMs) }

/-- `shouldUseEventDetection`. -/
def shouldUseEventDetection (s : ServiceState) : Bool :=
  s.config.detectionMethod = IdleDetectionMethod.events ||
  s.config.detectionMethod = IdleDetectionMethod.hybrid ||
  s.config.detectionMethod = IdleDetectionMethod.auto

/-- `shouldUseButtonDetection`. -/
def shouldUseButtonDetection (s : ServiceState) : Bool :=
  s.config.detectionMethod = IdleDetectionMethod.button ||
  s.config.detectionMethod = IdleDetectionMethod.hybrid ||
  s.config.detectionMethod = IdleDetectionMethod.auto

/-- The guard at the top of `processAutoPromptFolder`:
`!this.config.autoPromptFolder` (empty string is falsy). -/
def hasAutoPromptFolder (s : ServiceState) : Bool :=
  !(s.config.autoPromptFolder == "")

/-- `!this.workspacePath`: present and not the empty string. -/
def hasWorkspacePath (s : ServiceState) : Bool :=
  match s.workspacePath with
  | some w => !(w == "")
  | none => false

/-- The README content written into a freshly created auto-prompt folder. -/
def readmeContent : String :=
  "# Kilo Code Auto-Prompt Folder\n\nThis folder is used by Kilo Code's idle detection feature.\n\nHow it works:\n1. When Kilo Code becomes idle after completing a task\n2. All .txt files in this folder are automatically read\n3. Their contents are combined and sent to the AI as a new task\n\nTo use this feature:\n- Create .txt files in this folder with your task descriptions\n- Enable idle detection in VSCode settings (search for \"kilo-code idle\")\n- When Kilo Code becomes idle, your tasks will be automatically processed\n\nExample: Create a file named \"review-code.txt\" with content like:\n\"Review the authentication module for security issues\"\n\nFor more information, see: IDLE_DETECTION_FEATURES.md in the project root.\n"

/-- `content.trim()` is falsy exactly when every character is
whitespace (the empty string included). -/
def isBlank (s : String) : Bool :=
  s.data.all Char.isWhitespace

/-- `s.endsWith(suffix)` as a suffix check on the character lists. -/
def strEndsWith (s suffix : String) : Bool :=
  suffix.data.isSuffixOf s.data

/-- The per-file step of the read loop: a file that fails to read is
skipped (the `catch` logs and continues), a file whose content is
whitespace-only fails `content.trim()` and is skipped, otherwise a
header section is produced. -/
def sectionOf (f : String × Option String) : Option String :=
  match f.2 with
  | some content =>
      if isBlank content then none
      else some ("### Content from " ++ f.1 ++ ":\n" ++ content)
  | none => none

/-- `processAutoPromptFolder`: returns the folder state after the call and
`some prompt` exactly when `autoPromptReady` is emitted.  When the folder
is absent it is created together with `README.txt` and no prompt is
emitted; otherwise the `.txt` entries are read in listing order and the
non-empty sections joined with blank lines. -/
def processAutoPromptFolder (s : ServiceState) (fs : FS) : FS × Option String :=
  if !(hasAutoPromptFolder s && hasWorkspacePath s) then (fs, none)
  else if s.isPaused then (fs, none)
  else
    match fs with
    | none => (some [("README.txt", some readmeContent)], none)
    | some files =>
        let textFiles := files.filter (fun f => strEndsWith f.1 ".txt")
        if textFiles.isEmpty then (some files, none)
        else
          let fileContents := textFiles.filterMap sectionOf
          if fileContents.isEmpty then (some files, none)
          else (some files, some (String.intercalate "\n\n" fileContents))

/-- The `autoPromptReady` emission of a folder-processing pass: one
event when a prompt was composed, none otherwise. -/
def promptEmissions (o : Option String) : List Emission :=
  match o with
  | some p => [Emission.autoPromptReady p]
  | none => []

/-- `handleIdleTimeout`: re-checks the live flags, and on a genuine idle
transition flips `isIdle`, updates the status, emits `idle`, optionally
shows the notification, and processes the auto-prompt folder. -/
def handleIdleTimeout (s : ServiceState) (fs : FS) :
    ServiceState × FS × List Emission :=
  if s.isIdle || s.isTaskActive then (s, fs, [])
  else
    let s1 := { s with isIdle := true }
    let r2 := updateStatus IdleStatus.idle s1
    let notif := if r2.1.config.enableNotifications then [Emission.notificationShown] else []
    let r3 := processAutoPromptFolder r2.1 fs
    (r2.1, r3.1, r2.2 ++ [Emission.idle] ++ notif ++ promptEmissions r3.2)

/-- `updateConfig`: merge the patch; when the merged configuration is
disabled, clear the timer and reset the internal flags.  Emits nothing. -/
def updateConfig (p : ConfigPatch) (s : ServiceState) :
    ServiceState × List Emission :=
  let cfg := mergeConfig s.config p
  let s1 := { s with config := cfg }
  if !cfg.enabled then
    ({ s1 with idleTimer := none, isIdle := false, isTaskActive := false }, [])
  else
    (s1, [])

/-- `notifyTaskStarted`. -/
def notifyTaskStarted (s : ServiceState) : ServiceState × List Emission :=
  if !s.config.enabled then (s, [])
  else if !shouldUseEventDetection s then (s, [])
  else
    let s1 := { s with isTaskActive := true, isIdle := false, idleTimer := none,
                       lastIdleDetectionSource := DetectionSource.events }
    let r := updateStatus IdleStatus.active s1
    (r.1, r.2 ++ [Emission.active])

/-- `notifyTaskCompletedOrMessageSent` at absolute time `now`. -/
def notifyTaskCompletedOrMessageSent (now : Nat) (s : ServiceState) :
    ServiceState × List Emission :=
  if !s.config.enabled then (s, [])
  else if !shouldUseEventDetection s then (s, [])
  else
    let s1 := { s with isTaskActive := false,
                       lastIdleDetectionSource := DetectionSource.events }
    let r := updateStatus IdleStatus.waiting s1
    (startIdleTimer now r.1, r.2)

/-- `notifyUserActivity`. -/
def notifyUserActivity (s : ServiceState) : ServiceState × List Emission :=
  if !s.config.enabled then (s, [])
  else ({ s with isIdle := false, idleTimer := none }, [])

/-- `notifyButtonVisible` at absolute time `now`. -/
def notifyButtonVisible (now : Nat) (s : ServiceState) :
    ServiceState × List Emission :=
  if !s.config.enabled then (s, [])
  else if !shouldUseButtonDetection s then (s, [])
  else
    let s1 := { s with isTaskActive := false,
                       lastIdleDetectionSource := DetectionSource.button }
    let r := updateStatus IdleStatus.waiting s1
    (startIdleTimer now r.1, r.2)

/-- `notifyButtonHidden`. -/
def notifyButtonHidden (s : ServiceState) : ServiceState × List Emission :=
  if !s.config.enabled then (s, [])
  else if !shouldUseButtonDetection s then (s, [])
  else
    let s1 := { s with isTaskActive := true, isIdle := false, idleTimer := none,
                       lastIdleDetectionSource := DetectionSource.button }
    let r := updateStatus IdleStatus.active s1
    (r.1, r.2 ++ [Emission.active])

/-- `pause`. -/
def pause (s : ServiceState) : ServiceState × List Emission :=
  if s.isPaused then (s, [])
  else
    let s1 := { s with isPaused := true,
                       pausedState := some ⟨s.isIdle, s.isTaskActive⟩,
                       idleTimer := none }
    let r := updateStatus IdleStatus.paused s1
    (r.1, r.2 ++ [Emission.paused])

/-- `resume` at absolute time `now` (the waiting branch restarts the
idle timer). -/
def resume (now : Nat) (s : ServiceState) : ServiceState × List Emission :=
  if !s.isPaused then (s, [])
  else
    let s0 := { s with isPaused := false }
    match s0.pausedState with
    | some ps =>
        let s1 := { s0 with isIdle := ps.isIdle, isTaskActive := ps.isTaskActive,
                            pausedState := none }
        if s1.isIdle then
          let r := updateStatus IdleStatus.idle s1
          (r.1, r.2 ++ [Emission.idle, Emission.resumed])
        else if !s1.isTaskActive then
          let r := updateStatus IdleStatus.waiting s1
          (startIdleTimer now r.1, r.2 ++ [Emission.resumed])
        else
          let r := updateStatus IdleStatus.active s1
          (r.1, r.2 ++ [Emission.resumed])
    | none =>
        let r := updateStatus IdleStatus.active s0
        (r.1, r.2 ++ [Emission.resumed])

/-- `getInstance`: the static singleton.  `inst` is the current value of
the static `instance` field, `hasOutputChannel` whether the output-channel
argument was supplied; the result is the new static field paired with the
value the call returns.  The source returns `instance!`, so the returned
value is modelled as an `Option` that is `none` exactly when the
non-null assertion is violated at runtime. -/
def getInstance (inst : Option ServiceState) (cfg : Option IdleDetectionConfig)
    (hasOutputChannel : Bool) (wp : Option String) :
    Option ServiceState × Option ServiceState :=
  match inst, cfg, hasOutputChannel with
  | none, some c, true =>
      let i := initialState c wp
      (some i, some i)
  | i, _, _ => (i, i)

/-! ## Timed execution harness

External calls arrive at absolute times (in ms, non-decreasing); the
single pending `setTimeout` callback fires at its deadline whenever that
deadline does not exceed the time of the next call (or the final
horizon).  This mirrors Node's cooperative event loop for a machine
whose only timer callback is `handleIdleTimeout`. -/

/-- The externally callable notification methods. -/
inductive ExtCall where
  | taskStarted
  | taskCompleted
  | userActivity
  | buttonVisible
  | buttonHidden
  | pauseCall
  | resumeCall
deriving DecidableEq, Repr

/-- Dispatch one external call at time `t`. -/
def dispatch (c : ExtCall) (t : Nat) (s : ServiceState) (fs : FS) :
    ServiceState × FS × List Emission :=
  match c with
  | ExtCall.taskStarted =>
      let r := notifyTaskStarted s
      (r.1, fs, r.2)
  | ExtCall.taskCompleted =>
      let r := notifyTaskCompletedOrMessageSent t s
      (r.1, fs, r.2)
  | ExtCall.userActivity =>
      let r := notifyUserActivity s
      (r.1, fs, r.2)
  | ExtCall.buttonVisible =>
      let r := notifyButtonVisible t s
      (r.1, fs, r.2)
  | ExtCall.buttonHidden =>
      let r := notifyButtonHidden s
      (r.1, fs, r.2)
  | ExtCall.pauseCall =>
      let r := pause s
      (r.1, fs, r.2)
  | ExtCall.resumeCall =>
      let r := resume t s
      (r.1, fs, r.2)

/-- Fire the pending timer callback if its deadline is at or before `t`:
the `setTimeout` handle is consumed and `handleIdleTimeout` runs at the
deadline. -/
def fireIfDue (t : Nat) (s : ServiceState) (fs : FS) :
    ServiceState × FS × List (Nat × Emission) :=
  match s.idleTimer with
  | some d =>
      if d ≤ t then
        let r := handleIdleTimeout { s with idleTimer := none } fs
        (r.1, r.2.1, r.2.2.map (fun e => (d, e)))
      else (s, fs, [])
  | none => (s, fs, [])

/-- Run the machine over a time-ordered list of external calls up to the
absolute time `horizon`, producing the final state, folder state, and
the time-stamped emission log. -/
def run (s : ServiceState) (fs : FS) (calls : List (Nat × ExtCall))
    (horizon : Nat) : ServiceState × FS × List (Nat × Emission) :=
  match calls with
  | [] => fireIfDue horizon s fs
  | (t, c) :: rest =>
      let r1 := fireIfDue t s fs
      let r2 := dispatch c t r1.1 r1.2.1
      let r3 := run r2.1 r2.2.1 rest horizon
      (r3.1, r3.2.1, r1.2.2 ++ r2.2.2.map (fun e => (t, e)) ++ r3.2.2)

/-- Number of transitions into status `idle` in a timed log. -/
def idleTransCount (log : List (Nat × Emission)) : Nat :=
  log.countP (fun e => decide (e.2 = Emission.statusChanged IdleStatus.idle))

/-- Number of `idle()` emissions in a timed log. -/
def idleEmitCount (log : List (Nat × Emission)) : Nat :=
  log.countP (fun e => decide (e.2 = Emission.idle))

/-- Times at which a transition into status `idle` is logged. -/
def idleTransitionTimes (log : List (Nat × Emission)) : List Nat :=
  log.filterMap (fun e =>
    match e.2 with
    | Emission.statusChanged IdleStatus.idle => some e.1
    | _ => none)

/-- Times at which an `autoPromptReady` emission is logged. -/
def autoPromptTimes (log : List (Nat × Emission)) : List Nat :=
  log.filterMap (fun e =>
    match e.2 with
    | Emission.autoPromptReady _ => some e.1
    | _ => none)

/-- An external call delivers a `finished` signal from an adapter that is
eligible under the current configuration: `taskCompleted` is the
event-adapter `finished`, `buttonVisible` the presence-adapter
`finished`. -/
def finishedEligible (c : ExtCall) (s : ServiceState) : Bool :=
  match c with
  | ExtCall.taskCompleted => shouldUseEventDetection s
  | ExtCall.buttonVisible => shouldUseButtonDetection s
  | _ => false

/-- The public `currentStatus` agrees with the internal `isIdle` /
`isTaskActive` flags (the correspondence `resume()` uses to rebuild the
status from a snapshot). -/
def statusConsistent (s : ServiceState) : Prop :=
  (s.currentStatus = IdleStatus.idle → s.isIdle = true)
  ∧ (s.currentStatus = IdleStatus.waiting → s.isIdle = false ∧ s.isTaskActive = false)
  ∧ (s.currentStatus = IdleStatus.active → s.isIdle = false ∧ s.isTaskActive = true)

/-! ## Concrete instances used by witnesses and counterexamples -/

/-- A hybrid-mode configuration with a 1000 ms timeout and no
auto-prompt folder configured. -/
def cfgH : IdleDetectionConfig :=
  { enabled := true
    detectionMethod := IdleDetectionMethod.hybrid
    idleTimeoutMs := 1000
    enableNotifications := false
    autoPromptFolder := ""
    showStatusBar := true }

/-- A freshly constructed service in configuration `cfgH`. -/
def s0H : ServiceState := initialState cfgH none

/-- Like `cfgH` but with an auto-prompt folder configured. -/
def cfgF : IdleDetectionConfig :=
  { enabled := true
    detectionMethod := IdleDetectionMethod.hybrid
    idleTimeoutMs := 1000
    enableNotifications := false
    autoPromptFolder := "prompts"
    showStatusBar := true }

/-- A freshly constructed service in configuration `cfgF` with a
workspace path. -/
def s0F : ServiceState := initialState cfgF (some "/w")

/-- A folder holding one readable, non-empty text file. -/
def fsA : FS := some [("a.txt", some "hello")]

/-- The patch `{ enabled: false }`. -/
def patchDisable : ConfigPatch := { emptyPatch with enabled := some false }

/-! ## Theorems -/

/-- A claim-agnostic helper: a folder-processing pass contributes no
emission other than `autoPromptReady`. -/
theorem countP_promptEmissions (o : Option String) (p : Emission → Bool)
    (h : ∀ x, p (Emission.autoPromptReady x) = false) :
    (promptEmissions o).countP p = 0 := by
  cases o <;> simp [promptEmissions, h]

/-- A claim-agnostic helper: the optional notification contributes no
emission other than `notificationShown`. -/
theorem countP_notif_opt (b : Bool) (p : Emission → Bool)
    (h : p Emission.notificationShown = false) :
    (if b = true then [Emission.notificationShown] else ([] : List Emission)).countP p = 0 := by
  cases b <;> simp [h]

/-- C1: from a fresh start under any enabled configuration with a valid
timeout, one `finished` signal from an eligible adapter at t=0 followed
by silence through exactly `idleTimeoutMs` yields exactly one transition
into status `idle` and exactly one `idle()` emission. -/
theorem C1_single_finished_one_idle (cfg : IdleDetectionConfig) (wp : Option String)
    (fs : FS) (c : ExtCall)
    (hen : cfg.enabled = true)
    (_hlo : 1000 ≤ cfg.idleTimeoutMs) (_hhi : cfg.idleTimeoutMs ≤ 300000)
    (hel : finishedEligible c (initialState cfg wp) = true) :
    idleTransCount (run (initialState cfg wp) fs [(0, c)] cfg.idleTimeoutMs).2.2 = 1
  ∧ idleEmitCount (run (initialState cfg wp) fs [(0, c)] cfg.idleTimeoutMs).2.2 = 1 := by
  cases c with
  | taskCompleted =>
      simp only [finishedEligible, initialState] at hel
      simp [run, fireIfDue, dispatch, notifyTaskCompletedOrMessageSent, initialState,
        updateStatus, startIdleTimer, clearIdleTimer, handleIdleTimeout,
        hel, hen, idleTransCount, idleEmitCount,
        List.countP_append, List.countP_cons, List.countP_map,
        countP_promptEmissions, countP_notif_opt]
  | buttonVisible =>
      simp only [finishedEligible, initialState] at hel
      simp [run, fireIfDue, dispatch, notifyButtonVisible, initialState,
        updateStatus, startIdleTimer, clearIdleTimer, handleIdleTimeout,
        hel, hen, idleTransCount, idleEmitCount,
        List.countP_append, List.countP_cons, List.countP_map,
        countP_promptEmissions, countP_notif_opt]
  | taskStarted => simp [finishedEligible] at hel
  | userActivity => simp [finishedEligible] at hel
  | buttonHidden => simp [finishedEligible] at hel
  | pauseCall => simp [finishedEligible] at hel
  | resumeCall => simp [finishedEligible] at hel

theorem C1_single_finished_one_idle_witness :
    idleTransCount (run (initialState cfgH none) none
      [(0, ExtCall.taskCompleted)] cfgH.idleTimeoutMs).2.2 = 1
  ∧ idleEmitCount (run (initialState cfgH none) none
      [(0, ExtCall.taskCompleted)] cfgH.idleTimeoutMs).2.2 = 1 :=
  C1_single_finished_one_idle cfgH none none ExtCall.taskCompleted rfl
    (by decide) (by decide) rfl

/-- C2 (counterexample): in hybrid mode with a 1000 ms timeout, presence
`finished` at t=0 and event `finished` at t=500 produce no Idle
transition by t=1000, and the unique Idle transition happens at t=1500 —
contradicting the claim that it occurs at t=1000. -/
theorem C2_hybrid_counterexample :
    idleTransitionTimes (run s0H none
      [(0, ExtCall.buttonVisible), (500, ExtCall.taskCompleted)] 1000).2.2 = []
  ∧ idleTransitionTimes (run s0H none
      [(0, ExtCall.buttonVisible), (500, ExtCall.taskCompleted)] 1500).2.2 = [1500]
  ∧ (1500 : Nat) ≠ 1000 := by
  exact ⟨rfl, rfl, by decide⟩

/-- C2 (amended): in that scenario exactly one Idle transition occurs,
and it occurs at t=1500 — one full timeout after the second `finished`
signal, which restarts the countdown — not at t=1000. -/
theorem C2_hybrid_idle_at_1500 :
    idleTransitionTimes (run s0H none
      [(0, ExtCall.buttonVisible), (500, ExtCall.taskCompleted)] 2000).2.2 = [1500]
  ∧ idleEmitCount (run s0H none
      [(0, ExtCall.buttonVisible), (500, ExtCall.taskCompleted)] 2000).2.2 = 1 := by
  exact ⟨rfl, rfl⟩

/-- C3: a timer firing while `isIdle` is already set or `isTaskActive`
shows live work is a complete no-op: `handleIdleTimeout` re-checks the
flags at fire time and returns the state, the folder, and an empty
emission log unchanged — no status change, no `idle()`, no
notification, no ingestion. -/
theorem C3_timer_fire_noop (s : ServiceState) (fs : FS)
    (h : s.isIdle = true ∨ s.isTaskActive = true) :
    handleIdleTimeout s fs = (s, fs, []) := by
  unfold handleIdleTimeout
  rcases h with h | h <;> simp [h]

theorem C3_timer_fire_noop_witness :
    handleIdleTimeout { s0H with isIdle := true } none =
      ({ s0H with isIdle := true }, none, []) :=
  C3_timer_fire_noop { s0H with isIdle := true } none (Or.inl rfl)

/-- C4 (counterexample): on the freshly constructed service the status
is `active` but `isTaskActive` is `false`, so `pause()` immediately
followed by `resume()` restores `waiting`, not the prior `active`. -/
theorem C4_pause_resume_counterexample :
    s0H.currentStatus = IdleStatus.active
  ∧ ((resume 0 (pause s0H).1).1).currentStatus = IdleStatus.waiting
  ∧ IdleStatus.waiting ≠ IdleStatus.active := by
  exact ⟨rfl, rfl, by decide⟩

/-- C4 (amended): `pause()` then `resume()` with no intervening signal
restores the exact prior status whenever the prior status is consistent
with the internal flags (`idle` with `isIdle` set, `waiting` with both
flags clear, `active` with `isTaskActive` set); `resume` rebuilds the
status from the snapshotted flags, not from the saved status itself. -/
theorem C4_pause_resume_consistent (s : ServiceState) (now : Nat)
    (hp : s.isPaused = false) (hs : s.currentStatus ≠ IdleStatus.paused)
    (hc : statusConsistent s) :
    ((resume now (pause s).1).1).currentStatus = s.currentStatus := by
  obtain ⟨hci, hcw, hca⟩ := hc
  cases hcs : s.currentStatus with
  | idle =>
      have h1 : s.isIdle = true := hci hcs
      simp [pause, resume, updateStatus, startIdleTimer, clearIdleTimer, hp, hs, hcs, h1]
  | waiting =>
      obtain ⟨h1, h2⟩ := hcw hcs
      simp [pause, resume, updateStatus, startIdleTimer, clearIdleTimer, hp, hs, hcs, h1, h2]
  | active =>
      obtain ⟨h1, h2⟩ := hca hcs
      simp [pause, resume, updateStatus, startIdleTimer, clearIdleTimer, hp, hs, hcs, h1, h2]
  | paused => exact absurd hcs hs

theorem C4_pause_resume_consistent_witness :
    ((resume 0 (pause { s0H with currentStatus := IdleStatus.waiting }).1).1).currentStatus =
      ({ s0H with currentStatus := IdleStatus.waiting } : ServiceState).currentStatus :=
  C4_pause_resume_consistent { s0H with currentStatus := IdleStatus.waiting } 0
    rfl (by decide) (by refine ⟨?_, ?_, ?_⟩ <;> intro h <;> simp_all [s0H, initialState, cfgH])

/-- C8 (counterexample): an out-of-range timeout supplied through
`updateConfig` is stored and used as-is: after `{ idleTimeoutMs: 50 }`
the scheduled countdown is 50 ms, below the claimed 1,000 ms lower
bound — no clamping happens anywhere. -/
theorem C8_no_clamp_counterexample :
    (updateConfig { emptyPatch with idleTimeoutMs := some 50 } s0H).1.config.idleTimeoutMs = 50
  ∧ (startIdleTimer 0 (updateConfig { emptyPatch with idleTimeoutMs := some 50 } s0H).1).idleTimer
      = some 50
  ∧ (50 : Nat) < 1000 := by
  exact ⟨rfl, rfl, by decide⟩

/-- C8 (amended): every scheduled countdown uses the configured
`idleTimeoutMs` verbatim, and `updateConfig` stores a supplied timeout
verbatim; no clamping into 1,000–300,000 ms or validation occurs. -/
theorem C8_timeout_used_verbatim :
    (∀ (now : Nat) (s : ServiceState),
      (startIdleTimer now s).idleTimer = some (now + s.config.idleTimeoutMs))
  ∧ (∀ (p : ConfigPatch) (s : ServiceState),
      (updateConfig p s).1.config.idleTimeoutMs = p.idleTimeoutMs.getD s.config.idleTimeoutMs) := by
  constructor
  · intro now s; rfl
  · intro p s
    unfold updateConfig
    dsimp
    split <;> rfl

/-- C10: `getInstance` called while no instance exists and the
configuration or the output channel is missing returns no instance
(`undefined` at runtime, despite the declared non-optional return
type); once an instance exists, the arguments of later calls are
ignored and the existing instance is returned. -/
theorem C10_getInstance_singleton :
    (∀ (cfg : Option IdleDetectionConfig) (oc : Bool) (wp : Option String),
      (cfg.isSome && oc) = false → getInstance none cfg oc wp = (none, none))
  ∧ (∀ (i : ServiceState) (cfg : Option IdleDetectionConfig) (oc : Bool) (wp : Option String),
      getInstance (some i) cfg oc wp = (some i, some i)) := by
  constructor
  · intro cfg oc wp h
    cases cfg <;> cases oc <;> simp_all [getInstance]
  · intro i cfg oc wp
    cases cfg <;> cases oc <;> rfl

theorem C10_getInstance_singleton_witness :
    getInstance none none false none = (none, none)
  ∧ getInstance (some s0H) (some cfgH) true none = (some s0H, some s0H) :=
  ⟨C10_getInstance_singleton.1 none false none rfl,
   C10_getInstance_singleton.2 s0H (some cfgH) true none⟩

/-- C5 (counterexample): a full run — `finished` at t=0, idle at
t=1000 (with an `autoPromptReady` from the one-file folder), `pause()`
at t=1100, `resume()` at t=1200 — shows the resume into Idle emits only
the status change, `idle()` and `resumed`: no `autoPromptReady` fires at
t=1200, i.e. the ContinuationIngester is not re-run on resume. -/
theorem C5_resume_idle_counterexample :
    (run s0F fsA
      [(0, ExtCall.taskCompleted), (1100, ExtCall.pauseCall), (1200, ExtCall.resumeCall)]
      2000).2.2 =
      [(0, Emission.statusChanged IdleStatus.waiting),
       (1000, Emission.statusChanged IdleStatus.idle),
       (1000, Emission.idle),
       (1000, Emission.autoPromptReady "### Content from a.txt:\nhello"),
       (1100, Emission.statusChanged IdleStatus.paused),
       (1100, Emission.paused),
       (1200, Emission.statusChanged IdleStatus.idle),
       (1200, Emission.idle),
       (1200, Emission.resumed)] := by
  rfl

/-- C5 (amended): when `resume()` restores a snapshot whose prior
sub-state is Idle, it re-emits the Idle status change and the `idle()`
event immediately, but does not re-run the ContinuationIngester: the
emissions are exactly `statusChanged idle`, `idle`, `resumed`, with no
`autoPromptReady` and no folder access. -/
theorem C5_resume_idle_no_ingestion (s : ServiceState) (now : Nat) (ps : PausedState)
    (h1 : s.isPaused = true) (h2 : s.pausedState = some ps) (h3 : ps.isIdle = true)
    (h4 : s.currentStatus = IdleStatus.paused) :
    (resume now s).2 =
      [Emission.statusChanged IdleStatus.idle, Emission.idle, Emission.resumed]
  ∧ ((resume now s).1).currentStatus = IdleStatus.idle := by
  unfold resume
  simp [h1, h2, h3, h4, updateStatus]

theorem C5_resume_idle_no_ingestion_witness :
    (resume 0 { s0F with isPaused := true, pausedState := some ⟨true, false⟩,
                         currentStatus := IdleStatus.paused }).2 =
      [Emission.statusChanged IdleStatus.idle, Emission.idle, Emission.resumed]
  ∧ ((resume 0 { s0F with isPaused := true, pausedState := some ⟨true, false⟩,
                          currentStatus := IdleStatus.paused }).1).currentStatus =
      IdleStatus.idle :=
  C5_resume_idle_no_ingestion _ 0 ⟨true, false⟩ rfl rfl rfl rfl

/-- C6 (counterexample): with the service in status `idle` (reached by a
real run), `updateConfig { enabled: false }` leaves the public status at
`idle` — `getStatus()` does not return `active` — and emits no
`statusChanged` event. -/
theorem C6_disable_counterexample :
    ((run s0H none [(0, ExtCall.taskCompleted)] 1000).1).currentStatus = IdleStatus.idle
  ∧ ((updateConfig patchDisable
        (run s0H none [(0, ExtCall.taskCompleted)] 1000).1).1).currentStatus = IdleStatus.idle
  ∧ (updateConfig patchDisable (run s0H none [(0, ExtCall.taskCompleted)] 1000).1).2 = []
  ∧ IdleStatus.idle ≠ IdleStatus.active := by
  exact ⟨rfl, rfl, rfl, by decide⟩

/-- C6 (amended): `updateConfig` with `enabled: false` cancels any
pending timer and resets the internal `isIdle` / `isTaskActive` flags,
but leaves the public `currentStatus` unchanged and emits no
`statusChanged` event. -/
theorem C6_disable_resets_flags (p : ConfigPatch) (s : ServiceState)
    (h : p.enabled = some false) :
    updateConfig p s =
      ({ s with config := mergeConfig s.config p, idleTimer := none,
                isIdle := false, isTaskActive := false }, []) := by
  unfold updateConfig
  simp [mergeConfig, h]

theorem C6_disable_resets_flags_witness :
    updateConfig patchDisable { s0H with currentStatus := IdleStatus.idle, isIdle := true } =
      ({ { s0H with currentStatus := IdleStatus.idle, isIdle := true } with
          config := mergeConfig cfgH patchDisable, idleTimer := none,
          isIdle := false, isTaskActive := false }, []) :=
  C6_disable_resets_flags patchDisable _ rfl

/-- C7 (counterexample): with the directory listing returning `b.txt`
before `a.txt`, the composed prompt keeps listing order — the code never
sorts — so it is not the lexicographic-order concatenation the claim
requires. -/
theorem C7_order_counterexample :
    (processAutoPromptFolder s0F (some [("b.txt", some "B"), ("a.txt", some "A")])).2 =
      some "### Content from b.txt:\nB\n\n### Content from a.txt:\nA"
  ∧ "### Content from b.txt:\nB\n\n### Content from a.txt:\nA" ≠
      "### Content from a.txt:\nA\n\n### Content from b.txt:\nB" := by
  exact ⟨rfl, by decide⟩

/-- C7 (amended): on an existing folder the composed prompt is the
concatenation of exactly the non-empty (non-whitespace-only) readable
`.txt` resources, in the order the directory listing returns them (no
sorting), each preceded by a header naming its source file and joined by
blank lines; unreadable resources are skipped, and with zero surviving
sections no prompt is produced. -/
theorem C7_compose_listing_order (s : ServiceState)
    (entries : List (String × Option String))
    (hA : hasAutoPromptFolder s = true) (hW : hasWorkspacePath s = true)
    (hP : s.isPaused = false) :
    processAutoPromptFolder s (some entries) =
      (some entries,
        if ((entries.filter (fun f => strEndsWith f.1 ".txt")).filterMap sectionOf).isEmpty
        then none
        else some (String.intercalate "\n\n"
          ((entries.filter (fun f => strEndsWith f.1 ".txt")).filterMap sectionOf))) := by
  unfold processAutoPromptFolder
  simp only [hA, hW, hP, Bool.and_self, Bool.not_true, Bool.false_eq_true, if_false,
    Bool.true_and]
  by_cases ht : (entries.filter (fun f => strEndsWith f.1 ".txt")).isEmpty
  · have he : entries.filter (fun f => strEndsWith f.1 ".txt") = [] :=
      List.isEmpty_iff.mp ht
    simp [ht, he]
  · simp only [ht, if_false]
    by_cases hc : ((entries.filter (fun f => strEndsWith f.1 ".txt")).filterMap sectionOf).isEmpty
    · simp [hc]
    · simp [hc]

theorem C7_compose_listing_order_witness :
    processAutoPromptFolder s0F (some [("a.txt", some "hello"), ("skip.md", some "x"),
        ("err.txt", none), ("blank.txt", some "  \n")]) =
      (some [("a.txt", some "hello"), ("skip.md", some "x"),
        ("err.txt", none), ("blank.txt", some "  \n")],
       some "### Content from a.txt:\nhello") := by
  have h := C7_compose_listing_order s0F
    [("a.txt", some "hello"), ("skip.md", some "x"), ("err.txt", none), ("blank.txt", some "  \n")]
    rfl rfl rfl
  simpa using h

/-- C9: the bootstrap pass over an absent folder creates it holding
exactly the non-empty usage note `README.txt` and emits no prompt; every
later pass over that folder composes the note itself — its name carries
the recognized `.txt` extension and its content survives the emptiness
filter — so a prompt is produced even with no user-added files. -/
theorem C9_readme_ingested (s : ServiceState)
    (hA : hasAutoPromptFolder s = true) (hW : hasWorkspacePath s = true)
    (hP : s.isPaused = false) :
    processAutoPromptFolder s none = (some [("README.txt", some readmeContent)], none)
  ∧ processAutoPromptFolder s (some [("README.txt", some readmeContent)]) =
      (some [("README.txt", some readmeContent)],
        some ("### Content from README.txt:\n" ++ readmeContent)) := by
  constructor
  · unfold processAutoPromptFolder
    simp [hA, hW, hP]
  · unfold processAutoPromptFolder
    simp only [hA, hW, hP, Bool.and_self, Bool.not_true, Bool.false_eq_true, if_false,
      Bool.true_and]
    rfl

theorem C9_readme_ingested_witness :
    processAutoPromptFolder s0F none = (some [("README.txt", some readmeContent)], none)
  ∧ processAutoPromptFolder s0F (some [("README.txt", some readmeContent)]) =
      (some [("README.txt", some readmeContent)],
        some ("### Content from README.txt:\n" ++ readmeContent)) :=
  C9_readme_ingested s0F rfl rfl rfl

end IdleDetection
